import Mathlib

set_option maxRecDepth 8000

/-!
Shallow embedding of Open3D's pybind tensor accessor
(cpp/pybind/core/tensor_accessor.cpp): the ToTensorKey overload family, the
type-name ladder PyHandleToTensorKey, and the getitem/setitem bindings, with
proofs about index classification, composition and error behavior.
Machine integers are modelled as Int with explicit two's-complement reduction
where a C++ conversion narrows.
-/

/-- Element dtypes carried by the modelled tensors (the subset relevant to the
indexing layer: the selector invariant only distinguishes Bool from the rest). -/
inductive Dtype where
  | Bool
  | UInt8
  | Int32
  | Int64
deriving DecidableEq

/-- Value-level model of open3d::core::Tensor: an element dtype plus the flat
element values (shape and strides play no role in this layer's claims). -/
structure Tensor where
  dtype : Dtype
  values : List Int
deriving DecidableEq

/-- Per-element value cast applied by Tensor::To, reducing into the target
dtype's range (two's complement for the signed widths). -/
def castVal (d : Dtype) (v : Int) : Int :=
  match d with
  | .Bool => if v = 0 then 0 else 1
  | .UInt8 => v % 256
  | .Int32 => (v + 2147483648) % 4294967296 - 2147483648
  | .Int64 => (v + 9223372036854775808) % 18446744073709551616 - 9223372036854775808

/-- Model of Tensor::To(dtype): the identity when the dtype already matches
(the copy flag only affects aliasing, which a value model does not observe),
otherwise a cast of every element into the target dtype. -/
def Tensor.To (t : Tensor) (d : Dtype) : Tensor :=
  if t.dtype = d then t else ⟨d, t.values.map (castVal d)⟩

/-- Model of open3d::core::TensorKey, the closed canonical key union: Index
(scalar), Slice (range with per-field none flags), IndexTensor (gather). -/
inductive TensorKey where
  | index (i : Int)
  | slice (start stop step : Int) (startIsNone stopIsNone stepIsNone : Bool)
  | indexTensor (t : Tensor)
deriving DecidableEq

/-- Errors surfaced by the accessor layer.  unsupportedIndexType models the
final LogError of PyHandleToTensorKey (naming the offending runtime type);
keyConversionError models the LogError in its catch block; castError models a
pybind cast throwing on a type mismatch; valueError models CPython rejecting a
zero slice step; conversionError models a sequence-to-tensor failure;
overflowError models a Python int too large for int64; noOverload models
pybind finding no matching getitem overload. -/
inductive Err where
  | unsupportedIndexType (typeName : String)
  | keyConversionError (msg : String)
  | castError (typeName : String)
  | valueError (msg : String)
  | conversionError (msg : String)
  | overflowError (msg : String)
  | noOverload (typeName : String)
deriving DecidableEq

deriving instance DecidableEq for Except

/-- Apostrophe character, built numerically so type-name strings can be
assembled verbatim. -/
def apos : String := ⟨[Char.ofNat 39]⟩

/-- Python runtime type name of int, as compared against in the ladder. -/
def clsInt : String := "<class " ++ apos ++ "int" ++ apos ++ ">"

/-- Python runtime type name of slice. -/
def clsSlice : String := "<class " ++ apos ++ "slice" ++ apos ++ ">"

/-- Python runtime type name of list. -/
def clsList : String := "<class " ++ apos ++ "list" ++ apos ++ ">"

/-- Python runtime type name of tuple. -/
def clsTuple : String := "<class " ++ apos ++ "tuple" ++ apos ++ ">"

/-- Python runtime type name of numpy.ndarray. -/
def clsNdarray : String := "<class " ++ apos ++ "numpy.ndarray" ++ apos ++ ">"

/-- Runtime type name of a foreign float object, used as a concrete
unrecognized input. -/
def clsFloat : String := "<class " ++ apos ++ "float" ++ apos ++ ">"

/-- Runtime type name of the bound native tensor class. -/
def clsO3dTensor : String := "<class " ++ apos ++ "open3d.core.Tensor" ++ apos ++ ">"

/-- Model of a Python object as seen by the accessor bindings.  The first five
constructors are the concretely recognized shapes; obj covers every other
runtime type, carrying its type name and, when the object can be adapted to a
native tensor (pybind cast of Tensor succeeding), that tensor value. -/
inductive PyObject where
  | int (v : Int)
  | slice (start stop step : Option Int)
  | list (elems : List PyObject)
  | tuple (elems : List PyObject)
  | ndarray (t : Tensor)
  | obj (typeName : String) (asTensor : Option Tensor)

/-- Runtime type name, as produced by item.get_type().str(). -/
def PyObject.typeName : PyObject → String
  | .int _ => clsInt
  | .slice _ _ _ => clsSlice
  | .list _ => clsList
  | .tuple _ => clsTuple
  | .ndarray _ => clsNdarray
  | .obj n _ => n

/-- Whether pat occurs at the head of s, at the character-list level. -/
def startsWithChars : List Char → List Char → Bool
  | [], _ => true
  | _ :: _, [] => false
  | a :: as, b :: bs => a == b && startsWithChars as bs

/-- Whether pat occurs anywhere in s, at the character-list level. -/
def hasSubChars (pat : List Char) : List Char → Bool
  | [] => startsWithChars pat []
  | b :: bs => startsWithChars pat (b :: bs) || hasSubChars pat bs

/-- Substring test on strings; models std find of std::string returning a hit. -/
def strHasSub (s pat : String) : Bool := hasSubChars pat.toList s.toList

/-- Clamp into the Py_ssize_t range; models CPython evaluating a slice bound
with clamping (no error) semantics. -/
def clampSsize (v : Int) : Int :=
  if v > 9223372036854775807 then 9223372036854775807
  else if v < -9223372036854775808 then -9223372036854775808
  else v

/-- Step normalization of CPython PySlice_Unpack: an omitted step becomes 1, a
zero step is rejected, and values below the negated maximum are raised to it. -/
def unpackStep : Option Int → Except Err Int
  | none => .ok 1
  | some s =>
    if clampSsize s = 0 then .error (.valueError ("slice step cannot be zero"))
    else .ok (if clampSsize s < -9223372036854775807 then -9223372036854775807 else clampSsize s)

/-- Embeds ToTensorKey on a py slice: PySlice_Unpack substitutes numeric
defaults for omitted fields (direction-dependent for start and stop) and the
three PyNone_Check flags record exactly which fields the caller omitted. -/
def ToTensorKeySlice (start stop step : Option Int) : Except Err TensorKey :=
  match unpackStep step with
  | .error e => .error e
  | .ok stepV =>
    .ok (.slice
      (match start with
       | none => if stepV < 0 then 9223372036854775807 else 0
       | some v => clampSsize v)
      (match stop with
       | none => if stepV < 0 then -9223372036854775808 else 9223372036854775807
       | some v => clampSsize v)
      stepV start.isNone stop.isNone step.isNone)

/-- Embeds ToTensorKey(int key): TensorKey::Index with the value passed
through.  The 32-bit parameter type of the C++ function is where callers'
wider values get narrowed, at the call boundary. -/
def ToTensorKeyInt (key : Int) : TensorKey := .index key

/-- Reads a flat run of Python ints, the sequences this model materializes. -/
def pyIntsOf : List PyObject → Option (List Int)
  | [] => some []
  | .int v :: rest => (pyIntsOf rest).map (fun vs => v :: vs)
  | _ => none

/-- Modelled from the spec: SequenceToTensor.  PyTupleToTensor lives in
pybind/core/tensor_converter.cpp, which is not under src/; per the spec the
sequence is materialized into a native tensor (here a flat run of ints becomes
an Int64 tensor; anything else is a conversion failure surfaced verbatim). -/
def PyTupleToTensor (elems : List PyObject) : Except Err Tensor :=
  match pyIntsOf elems with
  | some vs => .ok ⟨Dtype.Int64, vs⟩
  | none => .error (.conversionError ("Unable to convert sequence to tensor"))

/-- Embeds ToTensorKey on a py list: materialize the sequence, keep a Bool
selector, cast any other dtype to Int64, wrap as an IndexTensor key. -/
def ToTensorKeyList (key : List PyObject) : Except Err TensorKey :=
  match PyTupleToTensor key with
  | .error e => .error e
  | .ok key_tensor =>
    .ok (.indexTensor (if key_tensor.dtype ≠ Dtype.Bool then key_tensor.To Dtype.Int64 else key_tensor))

/-- Embeds ToTensorKey on a py tuple: the source duplicates the list overload
body, materializing the whole tuple into one selector tensor. -/
def ToTensorKeyTuple (key : List PyObject) : Except Err TensorKey :=
  match PyTupleToTensor key with
  | .error e => .error e
  | .ok key_tensor =>
    .ok (.indexTensor (if key_tensor.dtype ≠ Dtype.Bool then key_tensor.To Dtype.Int64 else key_tensor))

/-- Modelled from the spec: ExternalArrayToTensor.  PyArrayToTensor lives in
pybind/core/tensor_converter.cpp, which is not under src/; the modelled
ndarray already carries its tensor value, so the conversion is the identity on
that value (the inplace flag only affects aliasing). -/
def PyArrayToTensor (t : Tensor) (inplace : Bool) : Tensor := t

/-- Embeds ToTensorKey on a py array: convert, then the same dtype
normalization as the list path. -/
def ToTensorKeyArray (key : Tensor) : TensorKey :=
  .indexTensor (if (PyArrayToTensor key false).dtype ≠ Dtype.Bool
    then (PyArrayToTensor key false).To Dtype.Int64 else PyArrayToTensor key false)

/-- Embeds ToTensorKey on a native Tensor: Bool selectors wrapped unchanged,
every other dtype cast to Int64 first. -/
def ToTensorKeyTensor (key_tensor : Tensor) : TensorKey :=
  if key_tensor.dtype ≠ Dtype.Bool then .indexTensor (key_tensor.To Dtype.Int64)
  else .indexTensor key_tensor

/-- Implicit int64-to-32-bit-int narrowing at a C++ call boundary, in two's
complement. -/
def toCInt (v : Int) : Int := (v + 2147483648) % 4294967296 - 2147483648

/-- Embeds PyHandleToTensorKey: the prioritized type-name ladder.  The int arm
casts the item to int64 (an overlarge Python int raises there) and then calls
ToTensorKey(int), whose 32-bit parameter narrows the value; the native-tensor
arm is recognized by the name containing both open3d and Tensor, with a failed
cast reported as a key conversion error; anything else is reported as an
unsupported index type naming the runtime type. -/
def PyHandleToTensorKey (item : PyObject) : Except Err TensorKey :=
  if PyObject.typeName item = clsInt then
    match item with
    | .int v =>
      if -9223372036854775808 ≤ v ∧ v ≤ 9223372036854775807 then
        .ok (ToTensorKeyInt (toCInt v))
      else .error (.overflowError ("Python int too large to convert to int64"))
    | _ => .error (.castError (PyObject.typeName item))
  else if PyObject.typeName item = clsSlice then
    match item with
    | .slice a b c => ToTensorKeySlice a b c
    | _ => .error (.castError (PyObject.typeName item))
  else if PyObject.typeName item = clsList then
    match item with
    | .list xs => ToTensorKeyList xs
    | _ => .error (.castError (PyObject.typeName item))
  else if PyObject.typeName item = clsTuple then
    match item with
    | .tuple xs => ToTensorKeyTuple xs
    | _ => .error (.castError (PyObject.typeName item))
  else if PyObject.typeName item = clsNdarray then
    match item with
    | .ndarray t => .ok (ToTensorKeyArray t)
    | _ => .error (.castError (PyObject.typeName item))
  else if strHasSub (PyObject.typeName item) ("open3d") && strHasSub (PyObject.typeName item) ("Tensor") then
    match item with
    | .obj _ (some t) => .ok (ToTensorKeyTensor t)
    | _ => .error (.keyConversionError ("Cannot cast index to Tensor."))
  else
    .error (.unsupportedIndexType (PyObject.typeName item))

/-- One classified key per top-level tuple element, in order; the first
failing element aborts (the exception unwinds out of the push_back loop before
any engine call). -/
def classifyTupleItems : List PyObject → Except Err (List TensorKey)
  | [] => .ok []
  | x :: xs =>
    match PyHandleToTensorKey x with
    | .error e => .error e
    | .ok k =>
      match classifyTupleItems xs with
      | .error e => .error e
      | .ok ks => .ok (k :: ks)

/-- Terminal storage-engine invocations: the four GetItem/SetItem entry
points.  Producing one of these values is the model of invoking the engine;
an error result means the engine was never reached. -/
inductive EngineCall where
  | getSingle (tk : TensorKey)
  | getMulti (tks : List TensorKey)
  | setSingle (tk : TensorKey) (value : Tensor)
  | setMulti (tks : List TensorKey) (value : Tensor)
deriving DecidableEq

/-- Embeds the _getitem diagnostic binding: one already-built key straight to
the single-key entry point. -/
def tensorGetItemDirect (tk : TensorKey) : EngineCall := .getSingle tk

/-- Embeds the _getitem_vector diagnostic binding. -/
def tensorGetItemVectorDirect (tks : List TensorKey) : EngineCall := .getMulti tks

/-- Embeds the _setitem binding: one already-built key plus a value to the
single-key write entry point. -/
def tensorSetItemDirect (tk : TensorKey) (value : Tensor) : EngineCall := .setSingle tk value

/-- Embeds the _setitem_vector binding. -/
def tensorSetItemVectorDirect (tks : List TensorKey) (value : Tensor) : EngineCall := .setMulti tks value

/-- Embeds the family of getitem overloads registered in
pybind_core_tensor_accessor together with pybind overload resolution: each
index expression is routed to the overload whose caster accepts it (a Python
int must fit the 32-bit int parameter; an object no caster accepts has no
overload), producing the storage-engine call.  A list goes through one key to
the single-key entry point; a tuple classifies each element and goes to the
multi-key entry point. -/
def tensorGetItemCall (key : PyObject) : Except Err EngineCall :=
  match key with
  | .int v =>
    if -2147483648 ≤ v ∧ v ≤ 2147483647 then .ok (.getSingle (ToTensorKeyInt v))
    else .error (.noOverload (PyObject.typeName key))
  | .slice a b c => Except.map EngineCall.getSingle (ToTensorKeySlice a b c)
  | .ndarray t => .ok (.getSingle (ToTensorKeyArray t))
  | .list xs => Except.map EngineCall.getSingle (ToTensorKeyList xs)
  | .tuple xs => Except.map EngineCall.getMulti (classifyTupleItems xs)
  | .obj _ (some t) => .ok (.getSingle (ToTensorKeyTensor t))
  | .obj n none => .error (.noOverload n)

/-- Modelled from the spec: the assignment surface.  Only the terminal
_setitem and _setitem_vector engine bindings appear under src/; the glue that
resolves the index expression of a write is specified to reuse the read
pipeline unchanged, differing only in the terminal engine call.  Spelled out
shape by shape so its agreement with the read path is a provable statement. -/
def tensorSetItemCall (key : PyObject) (value : Tensor) : Except Err EngineCall :=
  match key with
  | .int v =>
    if -2147483648 ≤ v ∧ v ≤ 2147483647 then .ok (tensorSetItemDirect (ToTensorKeyInt v) value)
    else .error (.noOverload (PyObject.typeName key))
  | .slice a b c => Except.map (fun tk => tensorSetItemDirect tk value) (ToTensorKeySlice a b c)
  | .ndarray t => .ok (tensorSetItemDirect (ToTensorKeyArray t) value)
  | .list xs => Except.map (fun tk => tensorSetItemDirect tk value) (ToTensorKeyList xs)
  | .tuple xs => Except.map (fun tks => tensorSetItemVectorDirect tks value) (classifyTupleItems xs)
  | .obj _ (some t) => .ok (tensorSetItemDirect (ToTensorKeyTensor t) value)
  | .obj n none => .error (.noOverload n)

/-- Replaces a read terminal by the corresponding write terminal carrying the
assigned value. -/
def withSetTerminal (value : Tensor) : EngineCall → EngineCall
  | .getSingle tk => .setSingle tk value
  | .getMulti tks => .setMulti tks value
  | c => c

/-- Whether a key is a Gather (IndexTensor) key. -/
def isGatherKey : TensorKey → Bool
  | .indexTensor _ => true
  | _ => false

/-- Whether an engine call is a single-key read carrying one Gather key. -/
def isSingleGatherCall : EngineCall → Bool
  | .getSingle (.indexTensor _) => true
  | _ => false

/-- Whether a fallible computation produced a value. -/
def exceptOk {α : Type} : Except Err α → Bool
  | .ok _ => true
  | .error _ => false

/-- The six runtime type shapes the ladder recognizes. -/
def recognizedTypeName (s : String) : Bool :=
  s == clsInt || s == clsSlice || s == clsList || s == clsTuple || s == clsNdarray ||
    (strHasSub s ("open3d") && strHasSub s ("Tensor"))

/-- Non-tuple items in the claim domain of the two-path agreement: integer,
slice, list, external array, and native tensor, the last recognized by the
name rule and adaptable to a tensor value. -/
def ClaimedNonTuple : PyObject → Bool
  | .int _ => true
  | .slice _ _ _ => true
  | .list _ => true
  | .ndarray _ => true
  | .obj n (some _) => strHasSub n ("open3d") && strHasSub n ("Tensor")
  | _ => false

/-- The Gather dtype-normalization rule: Boolean selectors are kept, every
other dtype is cast to Int64. -/
def normalizeGatherDtype (t : Tensor) : Tensor :=
  if t.dtype = Dtype.Bool then t else t.To Dtype.Int64

theorem To_dtype_eq (t : Tensor) (d : Dtype) : (t.To d).dtype = d := by
  unfold Tensor.To
  by_cases h : t.dtype = d
  · rw [if_pos h]; exact h
  · rw [if_neg h]

theorem To_of_dtype_eq (t : Tensor) (d : Dtype) (h : t.dtype = d) : t.To d = t := by
  unfold Tensor.To
  rw [if_pos h]

theorem pyHandle_int_eq (v : Int) :
    PyHandleToTensorKey (.int v) =
      if -9223372036854775808 ≤ v ∧ v ≤ 9223372036854775807 then .ok (ToTensorKeyInt (toCInt v))
      else .error (.overflowError ("Python int too large to convert to int64")) := by
  unfold PyHandleToTensorKey
  simp only [PyObject.typeName]
  rw [if_pos trivial]

theorem pyHandle_slice_eq (a b c : Option Int) :
    PyHandleToTensorKey (.slice a b c) = ToTensorKeySlice a b c := by
  unfold PyHandleToTensorKey
  simp only [PyObject.typeName]
  rw [if_neg (by decide), if_pos trivial]

theorem pyHandle_list_eq (xs : List PyObject) :
    PyHandleToTensorKey (.list xs) = ToTensorKeyList xs := by
  unfold PyHandleToTensorKey
  simp only [PyObject.typeName]
  rw [if_neg (by decide), if_neg (by decide), if_pos trivial]

theorem pyHandle_tuple_eq (xs : List PyObject) :
    PyHandleToTensorKey (.tuple xs) = ToTensorKeyTuple xs := by
  unfold PyHandleToTensorKey
  simp only [PyObject.typeName]
  rw [if_neg (by decide), if_neg (by decide), if_neg (by decide), if_pos trivial]

theorem pyHandle_ndarray_eq (t : Tensor) :
    PyHandleToTensorKey (.ndarray t) = .ok (ToTensorKeyArray t) := by
  unfold PyHandleToTensorKey
  simp only [PyObject.typeName]
  rw [if_neg (by decide), if_neg (by decide), if_neg (by decide), if_neg (by decide),
    if_pos trivial]

theorem pyHandle_obj_named (n : String) (c : Option Tensor)
    (h1 : strHasSub n ("open3d") = true) (h2 : strHasSub n ("Tensor") = true) :
    PyHandleToTensorKey (.obj n c) =
      match c with
      | some t => .ok (ToTensorKeyTensor t)
      | none => .error (.keyConversionError ("Cannot cast index to Tensor.")) := by
  have e1 : n ≠ clsInt := by intro hn; subst hn; exact absurd h1 (by decide)
  have e2 : n ≠ clsSlice := by intro hn; subst hn; exact absurd h1 (by decide)
  have e3 : n ≠ clsList := by intro hn; subst hn; exact absurd h1 (by decide)
  have e4 : n ≠ clsTuple := by intro hn; subst hn; exact absurd h1 (by decide)
  have e5 : n ≠ clsNdarray := by intro hn; subst hn; exact absurd h1 (by decide)
  unfold PyHandleToTensorKey
  simp only [PyObject.typeName]
  rw [if_neg e1, if_neg e2, if_neg e3, if_neg e4, if_neg e5, if_pos (by simp [h1, h2])]
  cases c <;> rfl

theorem ToTensorKeyList_gather (xs : List PyObject) (tk : TensorKey)
    (h : ToTensorKeyList xs = .ok tk) : isGatherKey tk = true := by
  unfold ToTensorKeyList at h
  cases hp : PyTupleToTensor xs with
  | error e => rw [hp] at h; exact absurd h (by simp)
  | ok u =>
    rw [hp] at h
    injection h with h1
    subst h1
    rfl

theorem ToTensorKeyTuple_gather (xs : List PyObject) (tk : TensorKey)
    (h : ToTensorKeyTuple xs = .ok tk) : isGatherKey tk = true := by
  unfold ToTensorKeyTuple at h
  cases hp : PyTupleToTensor xs with
  | error e => rw [hp] at h; exact absurd h (by simp)
  | ok u =>
    rw [hp] at h
    injection h with h1
    subst h1
    rfl

theorem classifyTupleItems_spec (xs : List PyObject) (ks : List TensorKey)
    (h : classifyTupleItems xs = .ok ks) :
    ks.length = xs.length ∧ ∀ (i : Nat) (hx : i < xs.length) (hk : i < ks.length),
      PyHandleToTensorKey (xs.get ⟨i, hx⟩) = .ok (ks.get ⟨i, hk⟩) := by
  induction xs generalizing ks with
  | nil =>
    simp only [classifyTupleItems] at h
    injection h with h1
    subst h1
    exact ⟨rfl, fun i hx _ => absurd hx (by simp)⟩
  | cons x rest ih =>
    simp only [classifyTupleItems] at h
    cases hx0 : PyHandleToTensorKey x with
    | error e => rw [hx0] at h; exact absurd h (by simp)
    | ok k =>
      rw [hx0] at h
      cases hr : classifyTupleItems rest with
      | error e => rw [hr] at h; exact absurd h (by simp)
      | ok ks' =>
        rw [hr] at h
        simp only [] at h
        injection h with h1
        subst h1
        obtain ⟨hlen, hget⟩ := ih ks' hr
        refine ⟨by simp [hlen], ?_⟩
        intro i hx hk
        cases i with
        | zero => exact hx0
        | succ j =>
          exact hget j (Nat.lt_of_succ_lt_succ hx) (Nat.lt_of_succ_lt_succ hk)

theorem classifyTupleItems_err (xs : List PyObject) (i : Nat) (hx : i < xs.length)
    (h : exceptOk (PyHandleToTensorKey (xs.get ⟨i, hx⟩)) = false) :
    exceptOk (classifyTupleItems xs) = false := by
  induction xs generalizing i with
  | nil => exact absurd hx (by simp)
  | cons x rest ih =>
    cases i with
    | zero =>
      have h0 : exceptOk (PyHandleToTensorKey x) = false := h
      cases hx0 : PyHandleToTensorKey x with
      | error e => simp [classifyTupleItems, hx0, exceptOk]
      | ok k => rw [hx0] at h0; exact absurd h0 (by simp [exceptOk])
    | succ j =>
      have h' : exceptOk (PyHandleToTensorKey (rest.get ⟨j, Nat.lt_of_succ_lt_succ hx⟩)) = false := h
      have hrec := ih j (Nat.lt_of_succ_lt_succ hx) h'
      cases hx0 : PyHandleToTensorKey x with
      | error e => simp [classifyTupleItems, hx0, exceptOk]
      | ok k =>
        cases hr : classifyTupleItems rest with
        | error e => simp [classifyTupleItems, hx0, hr, exceptOk]
        | ok ks => rw [hr] at hrec; exact absurd hrec (by simp [exceptOk])

/-- Claim C1: a top-level flat list is classified into exactly one Gather key
and submitted through the single-key GetItem entry point, while a top-level
tuple of length n classifies each of its n elements independently and submits
the ordered n-key sequence through the multi-key GetItem entry point, position
i holding the classification of element i. -/
theorem claim1_list_tuple_asymmetry (xs : List PyObject) :
    (∀ c, tensorGetItemCall (.list xs) = .ok c → isSingleGatherCall c = true) ∧
    tensorGetItemCall (.tuple xs) = Except.map EngineCall.getMulti (classifyTupleItems xs) ∧
    ∀ ks, classifyTupleItems xs = .ok ks → ks.length = xs.length ∧
      ∀ (i : Nat) (hx : i < xs.length) (hk : i < ks.length),
        PyHandleToTensorKey (xs.get ⟨i, hx⟩) = .ok (ks.get ⟨i, hk⟩) := by
  refine ⟨?_, rfl, fun ks hks => classifyTupleItems_spec xs ks hks⟩
  intro c hc
  simp only [tensorGetItemCall] at hc
  cases hlist : ToTensorKeyList xs with
  | error e => rw [hlist] at hc; exact absurd hc (by simp [Except.map])
  | ok tk =>
    rw [hlist] at hc
    simp only [Except.map] at hc
    injection hc with h1
    have hg := ToTensorKeyList_gather xs tk hlist
    cases tk with
    | indexTensor u => rw [← h1]; rfl
    | index i => exact absurd hg (by simp [isGatherKey])
    | slice a b c d e f => exact absurd hg (by simp [isGatherKey])

theorem claim1_witness :
    isSingleGatherCall (EngineCall.getSingle (TensorKey.indexTensor ⟨Dtype.Int64, [3, 4, 5]⟩)) = true ∧
    [TensorKey.index 3, TensorKey.index 4, TensorKey.index 5].length =
      [PyObject.int 3, PyObject.int 4, PyObject.int 5].length :=
  ⟨(claim1_list_tuple_asymmetry [PyObject.int 3, PyObject.int 4, PyObject.int 5]).1
      (EngineCall.getSingle (TensorKey.indexTensor ⟨Dtype.Int64, [3, 4, 5]⟩)) (by decide),
   ((claim1_list_tuple_asymmetry [PyObject.int 3, PyObject.int 4, PyObject.int 5]).2.2
      [TensorKey.index 3, TensorKey.index 4, TensorKey.index 5] (by decide)).1⟩

/-- Claim C2 counterexample: a tuple nested as an element of a top-level tuple
is not recursively expanded into one key per element.  The nested pair yields
a single Gather key over the materialized pair, and the full pipeline on a
two-element top-level tuple whose second element is that pair submits two
keys, not three. -/
theorem claim2_counterexample :
    PyHandleToTensorKey (.tuple [.int 2, .int 3]) =
      .ok (.indexTensor ⟨Dtype.Int64, [2, 3]⟩) ∧
    tensorGetItemCall (.tuple [.int 1, .tuple [.int 2, .int 3]]) =
      .ok (.getMulti [.index 1, .indexTensor ⟨Dtype.Int64, [2, 3]⟩]) ∧
    [TensorKey.index 1, TensorKey.indexTensor ⟨Dtype.Int64, [2, 3]⟩].length = 2 := by
  refine ⟨by decide, by decide, rfl⟩

/-- Claim C2 amended: an element of a top-level tuple that is itself a tuple
is classified like a list, through the whole-sequence materialization path,
producing exactly one Gather key for the whole nested tuple rather than one
key per nested element. -/
theorem claim2_nested_tuple_single_gather (xs : List PyObject) :
    PyHandleToTensorKey (.tuple xs) = ToTensorKeyTuple xs ∧
    ∀ k, ToTensorKeyTuple xs = .ok k → isGatherKey k = true :=
  ⟨pyHandle_tuple_eq xs, fun k hk => ToTensorKeyTuple_gather xs k hk⟩

theorem claim2_witness :
    isGatherKey (TensorKey.indexTensor ⟨Dtype.Int64, [2, 3]⟩) = true :=
  (claim2_nested_tuple_single_gather [PyObject.int 2, PyObject.int 3]).2
    (TensorKey.indexTensor ⟨Dtype.Int64, [2, 3]⟩) (by decide)

/-- Claim C3: the write surface accepts the same index-expression domain as
the read surface, resolves it through the identical classification and
composition pipeline, and differs from the read path only in the terminal
storage-engine call, which becomes the corresponding SetItem carrying the
value. -/
theorem claim3_write_read_symmetry (key : PyObject) (value : Tensor) :
    tensorSetItemCall key value = Except.map (withSetTerminal value) (tensorGetItemCall key) := by
  cases key with
  | int v =>
    by_cases h : -2147483648 ≤ v ∧ v ≤ 2147483647
    · simp [tensorSetItemCall, tensorGetItemCall, h, Except.map, withSetTerminal,
        tensorSetItemDirect]
    · simp [tensorSetItemCall, tensorGetItemCall, h, Except.map]
  | slice a b c =>
    cases hs : ToTensorKeySlice a b c <;>
      simp [tensorSetItemCall, tensorGetItemCall, hs, Except.map, withSetTerminal,
        tensorSetItemDirect]
  | list xs =>
    cases hs : ToTensorKeyList xs <;>
      simp [tensorSetItemCall, tensorGetItemCall, hs, Except.map, withSetTerminal,
        tensorSetItemDirect]
  | tuple xs =>
    cases hs : classifyTupleItems xs <;>
      simp [tensorSetItemCall, tensorGetItemCall, hs, Except.map, withSetTerminal,
        tensorSetItemVectorDirect]
  | ndarray t =>
    simp [tensorSetItemCall, tensorGetItemCall, Except.map, withSetTerminal, tensorSetItemDirect]
  | obj n c =>
    cases c <;>
      simp [tensorSetItemCall, tensorGetItemCall, Except.map, withSetTerminal, tensorSetItemDirect]

/-- Claim C4: on every Gather-producing path a Boolean selector is wrapped
with its dtype unchanged and any other selector is cast to Int64 first, the
four paths all wrap exactly the normalization of the converted tensor, and
the normalization is idempotent. -/
theorem claim4_gather_dtype_normalization (t u : Tensor) (xs : List PyObject) :
    ToTensorKeyTensor t = .indexTensor (normalizeGatherDtype t) ∧
    ToTensorKeyArray t = .indexTensor (normalizeGatherDtype t) ∧
    (PyTupleToTensor xs = .ok u →
      ToTensorKeyList xs = .ok (.indexTensor (normalizeGatherDtype u)) ∧
      ToTensorKeyTuple xs = .ok (.indexTensor (normalizeGatherDtype u))) ∧
    (t.dtype = Dtype.Bool → normalizeGatherDtype t = t) ∧
    (t.dtype ≠ Dtype.Bool → (normalizeGatherDtype t).dtype = Dtype.Int64) ∧
    normalizeGatherDtype (normalizeGatherDtype t) = normalizeGatherDtype t := by
  have hnorm : ∀ s : Tensor,
      (if s.dtype ≠ Dtype.Bool then s.To Dtype.Int64 else s) = normalizeGatherDtype s := by
    intro s
    by_cases hb : s.dtype = Dtype.Bool <;> simp [normalizeGatherDtype, hb]
  refine ⟨?_, ?_, ?_, ?_, ?_, ?_⟩
  · by_cases hb : t.dtype = Dtype.Bool <;> simp [ToTensorKeyTensor, normalizeGatherDtype, hb]
  · simp only [ToTensorKeyArray, PyArrayToTensor, hnorm]
  · intro hp
    constructor <;> simp only [ToTensorKeyList, ToTensorKeyTuple, hp, hnorm]
  · intro hb; simp [normalizeGatherDtype, hb]
  · intro hb
    simp only [normalizeGatherDtype, if_neg hb]
    exact To_dtype_eq t Dtype.Int64
  · by_cases hb : t.dtype = Dtype.Bool
    · simp [normalizeGatherDtype, hb]
    · have h2 : (t.To Dtype.Int64).dtype = Dtype.Int64 := To_dtype_eq t Dtype.Int64
      have h3 : (t.To Dtype.Int64).To Dtype.Int64 = t.To Dtype.Int64 :=
        To_of_dtype_eq (t.To Dtype.Int64) Dtype.Int64 h2
      simp [normalizeGatherDtype, hb, h2, h3]

theorem claim4_witness :
    ToTensorKeyTensor ⟨Dtype.Bool, [1, 0, 1]⟩ = .indexTensor ⟨Dtype.Bool, [1, 0, 1]⟩ ∧
    ToTensorKeyList [PyObject.int 3, PyObject.int 4] =
      .ok (.indexTensor ⟨Dtype.Int64, [3, 4]⟩) := by
  have h := claim4_gather_dtype_normalization ⟨Dtype.Bool, [1, 0, 1]⟩ ⟨Dtype.Int64, [3, 4]⟩
    [PyObject.int 3, PyObject.int 4]
  constructor
  · rw [h.1]; decide
  · rw [(h.2.2.1 (by decide)).1]; decide

/-- Claim C5: each of the three default flags on a Range key is true exactly
when the caller omitted that slice field, independent of whatever numeric
value was substituted for the omitted field. -/
theorem claim5_slice_default_flags (start stop step : Option Int) (h : step ≠ some 0) :
    ∃ s e st, ToTensorKeySlice start stop step =
      .ok (.slice s e st start.isNone stop.isNone step.isNone) := by
  cases step with
  | none => exact ⟨_, _, _, rfl⟩
  | some v =>
    have hv : v ≠ 0 := by intro hv0; exact h (by rw [hv0])
    have hcl : clampSsize v ≠ 0 := by
      unfold clampSsize
      split
      · omega
      · split
        · omega
        · exact hv
    have hstep : unpackStep (some v) =
        .ok (if clampSsize v < -9223372036854775807 then -9223372036854775807
          else clampSsize v) := by
      simp only [unpackStep]
      rw [if_neg hcl]
    simp only [ToTensorKeySlice, hstep]
    exact ⟨_, _, _, rfl⟩

theorem claim5_witness :
    ∃ s e st, ToTensorKeySlice none (some 5) none =
      .ok (.slice s e st true false true) :=
  claim5_slice_default_flags none (some 5) none (by decide)

/-- Claim C6: an index item whose runtime type matches none of the six
recognized shapes is classified to an UnsupportedIndexType error naming that
runtime type, never to a key value. -/
theorem claim6_unsupported_type (item : PyObject)
    (h : recognizedTypeName (PyObject.typeName item) = false) :
    PyHandleToTensorKey item = .error (.unsupportedIndexType (PyObject.typeName item)) := by
  simp only [recognizedTypeName, Bool.or_eq_false_iff, beq_eq_false_iff_ne] at h
  obtain ⟨⟨⟨⟨⟨h1, h2⟩, h3⟩, h4⟩, h5⟩, h6⟩ := h
  unfold PyHandleToTensorKey
  rw [if_neg h1, if_neg h2, if_neg h3, if_neg h4, if_neg h5, if_neg (by simp [h6])]

theorem claim6_witness :
    recognizedTypeName (PyObject.typeName (.obj clsFloat none)) = false ∧
    PyHandleToTensorKey (.obj clsFloat none) = .error (.unsupportedIndexType clsFloat) :=
  ⟨by decide, claim6_unsupported_type (.obj clsFloat none) (by decide)⟩

/-- Claim C7: a top-level tuple containing an element that fails
classification never reaches a storage-engine entry point, for reads or
writes — no engine call value is produced, so the tensor is left unmodified
and no valid element is partially applied. -/
theorem claim7_atomic_tuple_failure (xs : List PyObject) (value : Tensor) (i : Nat)
    (hx : i < xs.length)
    (herr : exceptOk (PyHandleToTensorKey (xs.get ⟨i, hx⟩)) = false) :
    exceptOk (tensorGetItemCall (.tuple xs)) = false ∧
    exceptOk (tensorSetItemCall (.tuple xs) value) = false := by
  have hc := classifyTupleItems_err xs i hx herr
  cases hr : classifyTupleItems xs with
  | error e =>
    constructor <;> simp [tensorGetItemCall, tensorSetItemCall, hr, Except.map, exceptOk]
  | ok ks => rw [hr] at hc; exact absurd hc (by simp [exceptOk])

theorem claim7_witness :
    exceptOk (tensorGetItemCall (.tuple [.int 1, .obj clsFloat none])) = false ∧
    exceptOk (tensorSetItemCall (.tuple [.int 1, .obj clsFloat none]) ⟨Dtype.Int64, [0]⟩) = false :=
  claim7_atomic_tuple_failure [PyObject.int 1, PyObject.obj clsFloat none]
    ⟨Dtype.Int64, [0]⟩ 1 (by decide) (by decide)

/-- Claim C8 (code bug evidence): the classifier does not pass every
representable int64 index through unchanged.  The call site casts the Python
int to int64 but then passes it into ToTensorKey(int), whose 32-bit parameter
narrows it, so the tuple element 2 to the power 40 produces ScalarIndex 0. -/
theorem claim8_int_truncation :
    PyHandleToTensorKey (.int (2 ^ 40)) = .ok (.index 0) ∧ (2 ^ 40 : Int) ≠ 0 := by
  constructor
  · decide
  · decide

/-- Claim C9: an index item whose runtime type name matches the native-tensor
recognition rule but which cannot be cast to a native Tensor value fails with
a KeyConversionError, a conversion-specific error distinct from
UnsupportedIndexType, and produces no key. -/
theorem claim9_key_conversion_failure (n : String)
    (h1 : strHasSub n ("open3d") = true) (h2 : strHasSub n ("Tensor") = true) :
    PyHandleToTensorKey (.obj n none) =
      .error (.keyConversionError ("Cannot cast index to Tensor.")) := by
  rw [pyHandle_obj_named n none h1 h2]

theorem claim9_witness :
    strHasSub clsO3dTensor ("open3d") = true ∧
    PyHandleToTensorKey (.obj clsO3dTensor none) =
      .error (.keyConversionError ("Cannot cast index to Tensor.")) :=
  ⟨by decide, claim9_key_conversion_failure clsO3dTensor (by decide) (by decide)⟩

/-- Claim C10: for every supported non-tuple index item — integer, slice,
list, external array, or native tensor recognized by the name rule — whenever
the top-level overload dispatch accepts the item and produces a single-key
engine call, the nested classifier PyHandleToTensorKey produces exactly the
same key, so the item selects the same elements alone or inside a tuple. -/
theorem claim10_paths_agree (item : PyObject) (hdom : ClaimedNonTuple item = true)
    (k : TensorKey) (htop : tensorGetItemCall item = .ok (.getSingle k)) :
    PyHandleToTensorKey item = .ok k := by
  cases item with
  | int v =>
    simp only [tensorGetItemCall] at htop
    by_cases hr : -2147483648 ≤ v ∧ v ≤ 2147483647
    · rw [if_pos hr] at htop
      injection htop with h1
      injection h1 with h2
      rw [pyHandle_int_eq, if_pos (by omega)]
      have ht : toCInt v = v := by unfold toCInt; omega
      rw [ht, h2]
    · rw [if_neg hr] at htop; exact absurd htop (by simp)
  | slice a b c =>
    simp only [tensorGetItemCall] at htop
    rw [pyHandle_slice_eq]
    cases hs : ToTensorKeySlice a b c with
    | error e => rw [hs] at htop; exact absurd htop (by simp [Except.map])
    | ok tk =>
      rw [hs] at htop
      simp only [Except.map] at htop
      injection htop with h1
      injection h1 with h2
      rw [h2]
  | list xs =>
    simp only [tensorGetItemCall] at htop
    rw [pyHandle_list_eq]
    cases hs : ToTensorKeyList xs with
    | error e => rw [hs] at htop; exact absurd htop (by simp [Except.map])
    | ok tk =>
      rw [hs] at htop
      simp only [Except.map] at htop
      injection htop with h1
      injection h1 with h2
      rw [h2]
  | ndarray t =>
    simp only [tensorGetItemCall] at htop
    injection htop with h1
    injection h1 with h2
    rw [pyHandle_ndarray_eq, h2]
  | tuple xs =>
    exact absurd hdom (by simp [ClaimedNonTuple])
  | obj n c =>
    cases c with
    | none => exact absurd hdom (by simp [ClaimedNonTuple])
    | some t =>
      simp only [ClaimedNonTuple, Bool.and_eq_true] at hdom
      simp only [tensorGetItemCall] at htop
      injection htop with h1
      injection h1 with h2
      rw [pyHandle_obj_named n (some t) hdom.1 hdom.2]
      show Except.ok (ToTensorKeyTensor t) = Except.ok k
      rw [h2]

theorem claim10_witness :
    ClaimedNonTuple (PyObject.int 5) = true ∧
    PyHandleToTensorKey (PyObject.int 5) = .ok (TensorKey.index 5) :=
  ⟨by decide, claim10_paths_agree (PyObject.int 5) (by decide) (TensorKey.index 5) (by decide)⟩
